import Mathlib

/-!
Verification development for the perfume-dashboard Cloudflare worker
(`worker.js` together with the D1 schema `schema.sql`).

The worker is shallowly embedded: every embedded definition is translated
from the JavaScript source (or from the SQL text it issues), with the
following standard representation choices.

* JavaScript numbers are modelled as rationals (the ingestion paths only
  parse and store decimal values, they perform no float-sensitive
  arithmetic that the claims depend on).
* A JavaScript value that may be a number, a string, null or undefined is
  modelled by the inductive `JsVal`; `null`/`undefined`/absent fields are
  `JsVal.vnull` or `Option.none`.
* The D1 store is modelled by the structure `DB`, one list per table.
  Statement execution is pure state passing; statement failure is an
  explicit error value, mirroring the NOT NULL constraints of
  `schema.sql` and the unknown-column error raised by SQLite.
* ISO date strings `YYYY-MM-DD` are modelled by their year/month/day
  components (`Ymd`); `new Date(dateStr)` is UTC midnight, i.e.
  `epochDay * 86400000` milliseconds where `epochDay` is computed by
  `daysFromCivil` below, and `toISOString().split(..)[0]` is floor
  division by 86400000 back to an epoch day.  The worker runs in a UTC
  environment (Cloudflare), so local-time and UTC constructors agree.
* `String.prototype.toUpperCase`/`toLowerCase` are modelled by ASCII
  case folding (`Char.toUpper`/`Char.toLower`); all keyword tables of the
  worker are already upper case, so the fold is the identity on them.
-/

/-! ## String helpers (JavaScript `includes`, `toUpperCase`, `toLowerCase`) -/

/-- ASCII upper-casing of a string, modelling `toUpperCase()`. -/
def upperStr (s : String) : String :=
  ⟨s.data.map Char.toUpper⟩

/-- ASCII lower-casing of a string, modelling `toLowerCase()`. -/
def lowerStr (s : String) : String :=
  ⟨s.data.map Char.toLower⟩

/-- Does the list start with the given pattern (character-wise)? -/
def startsWithL : List Char → List Char → Bool
  | _, [] => true
  | [], _ :: _ => false
  | a :: as, b :: bs => a == b && startsWithL as bs

/-- Substring containment on character lists, modelling
`String.prototype.includes`. -/
def containsSub : List Char → List Char → Bool
  | [], needle => needle.isEmpty
  | hay@(_ :: t), needle => startsWithL hay needle || containsSub t needle

/-- Case-sensitive substring test, modelling `name.includes(token)`. -/
def containsStr (hay needle : String) : Bool :=
  containsSub hay.data needle.data

/-- Case-insensitive substring test, modelling the SQLite pattern
`hay LIKE pattern` where the pattern is a single token between two
`%` wildcards (SQLite LIKE is ASCII-case-insensitive by default). -/
def likeContains (hay needle : String) : Bool :=
  containsSub (upperStr hay).data (upperStr needle).data

/-! ## Numeric parsing (`parseVietnameseNumber`, `parseInt`) -/

/-- A JavaScript value as it arrives in an ingestion payload field:
a number, a string, or null/undefined (an absent field). -/
inductive JsVal where
  | vnull
  | vnum (q : ℚ)
  | vstr (s : String)
deriving DecidableEq

/-- Leading decimal digits of a character list, and the rest. -/
def takeDigits : List Char → List Char × List Char
  | [] => ([], [])
  | c :: cs =>
    if c.isDigit then
      let (ds, rest) := takeDigits cs
      (c :: ds, rest)
    else
      ([], c :: cs)

/-- Numeric value of a digit list (most significant first). -/
def digitsToNat : List Char → Nat
  | [] => 0
  | c :: cs => (c.toNat - 48) * 10 ^ cs.length + digitsToNat cs

/-- Exponent suffix accepted by `parseFloat` (`e`/`E`, optional sign,
digits); returns the exponent, or 0 when the suffix does not parse
(in which case `parseFloat` stops before the `e`). -/
def parseExponent : List Char → Int
  | c :: cs =>
    if c = 'e' ∨ c = 'E' then
      match cs with
      | '+' :: ds => if (takeDigits ds).1.isEmpty then 0 else (digitsToNat (takeDigits ds).1 : Int)
      | '-' :: ds => if (takeDigits ds).1.isEmpty then 0 else -(digitsToNat (takeDigits ds).1 : Int)
      | ds => if (takeDigits ds).1.isEmpty then 0 else (digitsToNat (takeDigits ds).1 : Int)
    else 0
  | [] => 0

/-- Significand-and-rest part of `parseFloat`: digits, optional dot,
digits.  Returns `none` when no digit is found at the front. -/
def parseSignificand (cs : List Char) : Option (ℚ × List Char) :=
  let (intDs, rest1) := takeDigits cs
  match rest1 with
  | '.' :: rest2 =>
    let (fracDs, rest3) := takeDigits rest2
    if intDs.isEmpty ∧ fracDs.isEmpty then none
    else some ((digitsToNat intDs : ℚ) + (digitsToNat fracDs : ℚ) / (10 ^ fracDs.length : ℚ), rest3)
  | _ =>
    if intDs.isEmpty then none
    else some ((digitsToNat intDs : ℚ), rest1)

/-- `parseFloat` on a string: optional sign, decimal significand,
optional exponent; parses the longest valid prefix and ignores trailing
characters; `none` models NaN. -/
def parseFloatQ (s : String) : Option ℚ :=
  let cs := s.data.dropWhile (fun c => c = ' ')
  let (sign, cs') : ℚ × List Char :=
    match cs with
    | '-' :: rest => (-1, rest)
    | '+' :: rest => (1, rest)
    | rest => (1, rest)
  match parseSignificand cs' with
  | none => none
  | some (m, rest) => some (sign * m * (10 : ℚ) ^ parseExponent rest)

/-- `parseInt(v) || 0`: string converted (a number stringifies and
re-parses to its truncation), leading integer prefix parsed, `NaN`
collapsed to 0 by the `|| 0` guard. -/
def parseIntOr0 (v : JsVal) : Int :=
  match v with
  | .vnull => 0
  | .vnum q => q.floor + (if q < 0 ∧ ¬ (q.den = 1) then 1 else 0)
  | .vstr s =>
    let cs := s.data.dropWhile (fun c => c = ' ')
    match cs with
    | '-' :: rest => -(digitsToNat (takeDigits rest).1 : Int)
    | '+' :: rest => (digitsToNat (takeDigits rest).1 : Int)
    | rest => (digitsToNat (takeDigits rest).1 : Int)

/-- Strip every `.` from the string, modelling `replace(. global, empty)`. -/
def stripDots (s : String) : String :=
  ⟨s.data.filter (fun c => c ≠ '.')⟩

/-- Replace the first comma by a dot, modelling the single-replacement
`replace(comma, dot)`. -/
def replaceFirstComma : List Char → List Char
  | [] => []
  | c :: cs => if c = ',' then '.' :: cs else c :: replaceFirstComma cs

/-- `parseVietnameseNumber` from worker.js: falsy input yields 0, a
number is returned unchanged, a string is de-dotted, its first comma
becomes a dot, and the result is `parseFloat`-ed with NaN collapsed to
0 by `|| 0`. -/
def parseVietnameseNumber (value : JsVal) : ℚ :=
  match value with
  | .vnull => 0
  | .vnum q => if q = 0 then 0 else q
  | .vstr s =>
    if s = "" then 0
    else (parseFloatQ ⟨replaceFirstComma (stripDots s).data⟩).getD 0

/-! ## JSON values and the response envelope (`jsonResponse`) -/

/-- The JSON values the worker serialises (`JSON.stringify`). -/
inductive Json where
  | jnull
  | jbool (b : Bool)
  | jnum (q : ℚ)
  | jstr (s : String)
  | jarr (xs : List Json)
  | jobj (fields : List (String × Json))

/-- An HTTP response as produced by the worker: status and JSON body. -/
structure WResponse where
  status : Nat
  body : Json

/-- `jsonResponse(data, status)` from worker.js: wraps the data in the
`success`/`data` envelope; `success` is whether the status is 2xx. -/
def jsonResponse (data : Json) (status : Nat := 200) : WResponse :=
  { status := status
    body := Json.jobj
      [("success", Json.jbool (decide (200 ≤ status ∧ status < 300))),
       ("data", data)] }

/-! ## Calendar arithmetic (`new Date`, `getDay`, `getWeekOfYear`) -/

/-- A calendar date, the parsed form of an ISO `YYYY-MM-DD` string. -/
structure Ymd where
  y : Int
  m : Int
  d : Int
deriving DecidableEq

/-- Days from civil date to the Unix epoch (the `days_from_civil`
algorithm of Howard Hinnant); `new Date(iso).getTime() = daysFromCivil ... * 86400000`
for an ISO date string.  `/` on `Int` is Euclidean division, which is
floor division for the positive divisors used here. -/
def daysFromCivil (y m d : Int) : Int :=
  let y' := if m ≤ 2 then y - 1 else y
  let era := y' / 400
  let yoe := y' - era * 400
  let doy := (153 * (m + (if m > 2 then -3 else 9)) + 2) / 5 + d - 1
  let doe := yoe * 365 + yoe / 4 - yoe / 100 + doy
  era * 146097 + doe - 719468

/-- `Date.prototype.getDay` (0 = Sunday … 6 = Saturday): the Unix epoch
1970-01-01 was a Thursday (4). -/
def jsGetDay (y m d : Int) : Int :=
  (daysFromCivil y m d + 4) % 7

/-- `Math.ceil(a / b)` for integers with `b > 0`. -/
def jsCeilDiv (a b : Int) : Int :=
  (a + b - 1) / b

/-- `getWeekOfYear(date)` from worker.js: milliseconds from January 1 of
the year of the date, plus the weekday of January 1 in milliseconds,
divided by one week (604800000 ms) and rounded up. -/
def getWeekOfYear (y m d : Int) : Int :=
  let startD := daysFromCivil y 1 1
  let diff := (daysFromCivil y m d - startD) * 86400000
  jsCeilDiv (diff + ((startD + 4) % 7) * 86400000) 604800000

/-- Is the year a leap year (Gregorian calendar)? -/
def isLeapYear (y : Int) : Bool :=
  (y % 4 = 0 ∧ y % 100 ≠ 0) ∨ y % 400 = 0

/-- Number of days in the given month of the given year. -/
def daysInMonth (y m : Int) : Int :=
  if m = 2 then (if isLeapYear y then 29 else 28)
  else if m = 4 ∨ m = 6 ∨ m = 9 ∨ m = 11 then 30
  else 31

/-- A well-formed calendar date. -/
def validYmd (x : Ymd) : Prop :=
  1 ≤ x.m ∧ x.m ≤ 12 ∧ 1 ≤ x.d ∧ x.d ≤ daysInMonth x.y x.m

instance (x : Ymd) : Decidable (validYmd x) := by
  unfold validYmd; infer_instance

/-! ## The D1 store -/

/-- A row of `dim_campaign` (the columns the worker reads or writes). -/
structure CampaignRow where
  campaign_id : Nat
  campaign_name : String
  objective : String
deriving DecidableEq

/-- A row of `dim_date`. -/
structure DateRow where
  date_key : Int
  year : Int
  quarter : Int
  month : Int
  month_name : String
  week_of_year : Int
  day_of_month : Int
  day_of_week : Int
  day_name : String
  is_weekend : Int
deriving DecidableEq

/-- A row of `fact_ads_performance` (ingested columns). -/
structure PerfFact where
  date_key : Int
  campaign_id : Nat
  adset_name : Option String
  ad_name : Option String
  indicator : Option String
  action_key : Option String
  amount_spent : ℚ
  results : Int
  cost_per_result : ℚ
  impressions : Int
deriving DecidableEq

/-- The relational store: one list per table the claims touch.
Surrogate keys are autoincremented as `length + 1` from the seeded
contents, matching AUTOINCREMENT on a store only ever appended to. -/
structure DB where
  campaigns : List CampaignRow
  dates : List DateRow
  ages : List (Nat × String)
  genders : List (Nat × String)
  regions : List (Nat × String × String)
  perfFacts : List PerfFact
deriving DecidableEq

/-- The store right after `schema.sql` ran: age groups and genders are
pre-seeded, everything else empty. -/
def initialDB : DB :=
  { campaigns := []
    dates := []
    ages := [(1, "13-17"), (2, "18-24"), (3, "25-34"), (4, "35-44"),
             (5, "45-54"), (6, "55-64"), (7, "65+")]
    genders := [(1, "female"), (2, "male"), (3, "unknown")]
    regions := []
    perfFacts := [] }

/-! ## Dimension resolvers (get-or-create) -/

/-- Objective derivation in `getOrCreateCampaign`: ordered case-sensitive
substring checks on the campaign name. -/
def deriveObjective (name : String) : String :=
  if containsStr name "Impression" then "Impression"
  else if containsStr name "Visit" then "Visit"
  else if containsStr name "Mess" then "Message"
  else "Unknown"

/-- `getOrCreateCampaign(db, name)`: falsy name resolves to null; else
look up by exact name; else insert with the derived objective and
return the fresh key. -/
def getOrCreateCampaign (db : DB) (name : Option String) : Option Nat × DB :=
  match name with
  | none => (none, db)
  | some n =>
    if n = "" then (none, db)
    else
      match db.campaigns.find? (fun c => c.campaign_name = n) with
      | some c => (some c.campaign_id, db)
      | none =>
        let id := db.campaigns.length + 1
        (some id, { db with campaigns := db.campaigns ++ [⟨id, n, deriveObjective n⟩] })

/-- Day names indexed by `getDay()`. -/
def dayNames : List String :=
  ["Sunday", "Monday", "Tuesday", "Wednesday", "Thursday", "Friday", "Saturday"]

/-- Month names indexed by `getMonth()`. -/
def monthNames : List String :=
  ["January", "February", "March", "April", "May", "June",
   "July", "August", "September", "October", "November", "December"]

/-- The `dim_date` row inserted by `getOrCreateDate` for a date, field by
field as bound in the INSERT statement. -/
def mkDateRow (y m d : Int) : DateRow :=
  let wd := jsGetDay y m d
  { date_key := y * 10000 + m * 100 + d
    year := y
    quarter := jsCeilDiv m 3
    month := m
    month_name := monthNames.getD (m - 1).toNat ""
    week_of_year := getWeekOfYear y m d
    day_of_month := d
    day_of_week := if wd = 0 then 7 else wd
    day_name := dayNames.getD wd.toNat ""
    is_weekend := if wd = 0 ∨ wd = 6 then 1 else 0 }

/-- `getOrCreateDate(db, dateStr)`: falsy date string resolves to null;
the date key is the ISO string with dashes removed, parsed as an
integer (`y * 10000 + m * 100 + d` for a well-formed string); a missing
key inserts the derived calendar row. -/
def getOrCreateDate (db : DB) (date : Option Ymd) : Option Int × DB :=
  match date with
  | none => (none, db)
  | some x =>
    let key := x.y * 10000 + x.m * 100 + x.d
    match db.dates.find? (fun r => r.date_key = key) with
    | some _ => (some key, db)
    | none => (some key, { db with dates := db.dates ++ [mkDateRow x.y x.m x.d] })

/-- `getOrCreateAge(db, ageRange)`: a falsy age range resolves to the
default key 1 (the first seeded age group), not null. -/
def getOrCreateAge (db : DB) (ageRange : Option String) : Option Nat × DB :=
  match ageRange with
  | none => (some 1, db)
  | some a =>
    if a = "" then (some 1, db)
    else
      match db.ages.find? (fun p => p.2 = a) with
      | some p => (some p.1, db)
      | none =>
        let id := db.ages.length + 1
        (some id, { db with ages := db.ages ++ [(id, a)] })

/-- `getOrCreateGender(db, gender)`: a falsy gender resolves to the
default key 3 (the seeded unknown gender), not null; otherwise the
value is lower-cased before lookup and insert. -/
def getOrCreateGender (db : DB) (gender : Option String) : Option Nat × DB :=
  match gender with
  | none => (some 3, db)
  | some g =>
    if g = "" then (some 3, db)
    else
      let normalized := lowerStr g
      match db.genders.find? (fun p => p.2 = normalized) with
      | some p => (some p.1, db)
      | none =>
        let id := db.genders.length + 1
        (some id, { db with genders := db.genders ++ [(id, normalized)] })

/-- `getOrCreateRegion(db, regionName)`: falsy name resolves to null;
else look up by name; else classify the region type by the substring
City and insert. -/
def getOrCreateRegion (db : DB) (regionName : Option String) : Option Nat × DB :=
  match regionName with
  | none => (none, db)
  | some r =>
    if r = "" then (none, db)
    else
      match db.regions.find? (fun p => p.2.1 = r) with
      | some p => (some p.1, db)
      | none =>
        let id := db.regions.length + 1
        let rtype := if containsStr r "City" then "City" else "Province"
        (some id, { db with regions := db.regions ++ [(id, r, rtype)] })

/-! ## Fact ingestion (`ingestPerformance`) -/

/-- One raw row of a performance-ingestion payload, external field
names as in the n8n contract.  A `none`/`vnull` field was absent or
null in the JSON payload; the `Date` string is carried in parsed form. -/
structure PerfRow where
  Campaign : Option String
  Date : Option Ymd
  AdSet : Option String
  Ad : Option String
  Indicator : Option String
  ActionKey : Option String
  AmountSpent : JsVal
  Results : JsVal
  CostPerResult : JsVal
  Impressions : JsVal
deriving DecidableEq

/-- `row.Field || null`: the empty string is coerced to null too. -/
def orNull (o : Option String) : Option String :=
  match o with
  | some "" => none
  | x => x

/-- One recorded per-row ingestion failure: the JavaScript object
`row and error` pushed onto `errors`, instrumented with the position
of the row in the batch. -/
structure ErrEntry where
  index : Nat
  row : PerfRow
  error : String
deriving DecidableEq

/-- The INSERT into `fact_ads_performance`: the store raises on a NULL
bound to a NOT NULL column (`date_key`, `campaign_id`, in column
order), otherwise appends the fact row. -/
def insertPerf (db : DB) (dateKey : Option Int) (campaignId : Option Nat)
    (adset ad ind ak : Option String) (spent : ℚ) (res : Int) (cpr : ℚ)
    (imp : Int) : Except String DB :=
  match dateKey with
  | none => .error "NOT NULL constraint failed: fact_ads_performance.date_key"
  | some dk =>
    match campaignId with
    | none => .error "NOT NULL constraint failed: fact_ads_performance.campaign_id"
    | some cid =>
      .ok { db with perfFacts := db.perfFacts ++ [⟨dk, cid, adset, ad, ind, ak, spent, res, cpr, imp⟩] }

/-- The body of the try block of `ingestPerformance` for one row:
resolve the campaign and date dimensions (their insertions persist even
if the row later fails), parse the numeric fields, insert the fact.
Returns the store after the row and the caught error message, if any. -/
def processPerfRow (db : DB) (row : PerfRow) : DB × Option String :=
  let c := getOrCreateCampaign db row.Campaign
  let dt := getOrCreateDate c.2 row.Date
  let amountSpent := parseVietnameseNumber row.AmountSpent
  let costPerResult := parseVietnameseNumber row.CostPerResult
  match insertPerf dt.2 dt.1 c.1 (orNull row.AdSet) (orNull row.Ad)
      (orNull row.Indicator) (orNull row.ActionKey) amountSpent
      (parseIntOr0 row.Results) costPerResult (parseIntOr0 row.Impressions) with
  | .ok db3 => (db3, none)
  | .error m => (dt.2, some m)

/-- The `for (const row of data)` loop of `ingestPerformance`, starting
at position `idx`: per-row failures are recorded and the loop continues;
returns the final store, the processed count and the error list. -/
def ingestGo (db : DB) (idx : Nat) : List PerfRow → DB × Nat × List ErrEntry
  | [] => (db, 0, [])
  | r :: rs =>
    let pr := processPerfRow db r
    let rest := ingestGo pr.1 (idx + 1) rs
    match pr.2 with
    | none => (rest.1, rest.2.1 + 1, rest.2.2)
    | some m => (rest.1, rest.2.1, ⟨idx, r, m⟩ :: rest.2.2)

/-- The whole batch loop of `ingestPerformance` over an array payload. -/
def ingestPerform (db : DB) (rows : List PerfRow) : DB × Nat × List ErrEntry :=
  ingestGo db 0 rows

/-- Zero-padded two-digit rendering of a month or day component. -/
def pad2 (n : Int) : String :=
  if 0 ≤ n ∧ n < 10 then "0" ++ toString n else toString n

/-- The ISO string a `Ymd` stands for. -/
def isoOfYmd (x : Ymd) : String :=
  toString x.y ++ "-" ++ pad2 x.m ++ "-" ++ pad2 x.d

/-- JSON serialisation of one payload value. -/
def jsValJson (v : JsVal) : Json :=
  match v with
  | .vnull => Json.jnull
  | .vnum q => Json.jnum q
  | .vstr s => Json.jstr s

/-- JSON serialisation of a payload row (`JSON.stringify` omits the
fields that were absent). -/
def perfRowJson (r : PerfRow) : Json :=
  Json.jobj
    ((match r.Campaign with | some s => [("Campaign", Json.jstr s)] | none => []) ++
     (match r.Date with | some x => [("Date", Json.jstr (isoOfYmd x))] | none => []) ++
     (match r.AdSet with | some s => [("AdSet", Json.jstr s)] | none => []) ++
     (match r.Ad with | some s => [("Ad", Json.jstr s)] | none => []) ++
     (match r.Indicator with | some s => [("Indicator", Json.jstr s)] | none => []) ++
     (match r.ActionKey with | some s => [("ActionKey", Json.jstr s)] | none => []) ++
     [("AmountSpent", jsValJson r.AmountSpent),
      ("Results", jsValJson r.Results),
      ("CostPerResult", jsValJson r.CostPerResult),
      ("Impressions", jsValJson r.Impressions)])

/-- JSON serialisation of one recorded error. -/
def errEntryJson (e : ErrEntry) : Json :=
  Json.jobj [("row", perfRowJson e.row), ("error", Json.jstr e.error)]

/-- The object literal returned by `ingestPerformance` as the response
data: `processed`, and `errors` set to the error array when non-empty
and to null otherwise (the key itself is always serialised). -/
def ingestDataObj (db : DB) (rows : List PerfRow) : List (String × Json) :=
  let r := ingestPerform db rows
  [("processed", Json.jnum (r.2.1 : ℚ)),
   ("errors", if r.2.2.length > 0 then Json.jarr (r.2.2.map errEntryJson) else Json.jnull)]

/-- An ingestion request body after `request.json()`: either an array
of rows or some non-array JSON value. -/
inductive Payload where
  | arr (rows : List PerfRow)
  | notArray

/-- `ingestPerformance(env, request)`: a non-array payload is a 400
validation failure; an array is processed row by row and answered with
the processed count and the error list (null when empty). -/
def ingestPerformance (db : DB) (payload : Payload) : WResponse :=
  match payload with
  | .notArray => jsonResponse (Json.jobj [("error", Json.jstr "Data must be an array")]) 400
  | .arr rows => jsonResponse (Json.jobj (ingestDataObj db rows)) 200

/-! ## Classification engine -/

/-- The ordered product table of `getTopProducts`/`getProductDaily`:
product line name to keyword variants, in declaration order
(`Object.entries` preserves string-key insertion order). -/
def productMapping : List (String × List String) :=
  [("DIRTY MILK", ["DIRTY MILK"]),
   ("MATCHA", ["MATCHA"]),
   ("LENGLINH", ["LENGLINH"]),
   ("WHITE CRUSH", ["WHITE CRUSH"]),
   ("CHOCO LOCO", ["CHOCO LOCO"]),
   ("GOLD JUICE", ["GOLD JUICE"]),
   ("EXTRAIT EXTREME", ["EXTRAIT"]),
   ("MAISON DE AMALRIC", ["MAISON DE AMALRIC"]),
   ("BLACK FRIDAY", ["BLACK FRIDAY"]),
   ("CHRISTMAS", ["GIÁNG SINH", "CHRISTMAS", "LỄ HỘI", "MÙA LỄ"])]

/-- Does the upper-cased ad name match any keyword variant of the
product entry? -/
def matchesProduct (upperName : String) (p : String × List String) : Bool :=
  p.2.any (fun k => containsStr upperName (upperStr k))

/-- `extractProductLine(adName)` from worker.js: falsy name is
Mix Product without upper-casing; otherwise the first product entry
with a matching keyword wins; no match is Mix Product. -/
def extractProductLine (adName : Option String) : String :=
  match adName with
  | none => "Mix Product"
  | some s =>
    if s = "" then "Mix Product"
    else
      let upperName := upperStr s
      match productMapping.find? (matchesProduct upperName) with
      | some p => p.1
      | none => "Mix Product"

/-- The channel CASE expression of the `getBreakdown` queries: ordered
LIKE tests on the campaign name, Facebook tokens first. -/
def channelOf (name : String) : String :=
  if likeContains name "FB" || likeContains name "Facebook" then "Facebook"
  else if likeContains name "IG" || likeContains name "Instagram" then "Instagram"
  else "Other"

/-! ## Period comparator (`getPreviousPeriod`) -/

/-- `getPreviousPeriod(startDate, endDate)` from worker.js, on epoch-day
numbers: the ISO inputs parse to UTC midnights `day * 86400000` ms, the
duration is `end - start` in ms, the previous end is one day (86400000
ms) before the start, the previous start is the duration before that,
and `toISOString` truncates each result back to its epoch day. -/
def getPreviousPeriod (startDay endDay : Int) : Int × Int :=
  let start := startDay * 86400000
  let stop := endDay * 86400000
  let duration := stop - start
  let prevEnd := start - 86400000
  let prevStart := prevEnd - duration
  (prevStart / 86400000, prevEnd / 86400000)

/-! ## The product-daily endpoint (`getProductDaily`) -/

/-- Civil date from days since the Unix epoch (the `civil_from_days`
algorithm of Howard Hinnant), used to model `setDate(getDate() - 30)`. -/
def civilFromDays (days : Int) : Ymd :=
  let z := days + 719468
  let era := z / 146097
  let doe := z - era * 146097
  let yoe := (doe - doe / 1460 + doe / 36524 - doe / 146096) / 365
  let y := yoe + era * 400
  let doy := doe - (365 * yoe + yoe / 4 - yoe / 100)
  let mp := (5 * doy + 2) / 153
  let d := doy - (153 * mp + 2) / 5 + 1
  let m := mp + (if mp < 10 then 3 else -9)
  ⟨y + (if m ≤ 2 then 1 else 0), m, d⟩

/-- The date `n` days before the given one. -/
def subDays (x : Ymd) (n : Int) : Ymd :=
  civilFromDays (daysFromCivil x.y x.m x.d - n)

/-- `getDateKey(dateStr)`: the ISO string with dashes removed, parsed
as an integer. -/
def getDateKey (x : Ymd) : Int :=
  x.y * 10000 + x.m * 100 + x.d

/-- Columns of `dim_campaign` in schema.sql. -/
def dimCampaignColumns : List String :=
  ["campaign_id", "campaign_name", "platform", "objective", "created_at"]

/-- Columns of `dim_date` in schema.sql. -/
def dimDateColumns : List String :=
  ["date_key", "full_date", "year", "quarter", "month", "month_name",
   "week_of_year", "day_of_month", "day_of_week", "day_name", "is_weekend"]

/-- Columns of `fact_ads_performance` in schema.sql. -/
def factAdsPerformanceColumns : List String :=
  ["id", "date_key", "campaign_id", "adset_name", "ad_name", "indicator",
   "action_key", "amount_spent", "results", "cost_per_result",
   "impressions", "created_at"]

/-- Table aliases of the `getProductDaily` query (FROM/JOIN clauses). -/
def productDailyTableAliases : List (String × List String) :=
  [("f", factAdsPerformanceColumns), ("d", dimDateColumns), ("c", dimCampaignColumns)]

/-- Every `alias.column` reference of the `getProductDaily` query text,
in reading order: SELECT list, JOIN conditions, WHERE conditions,
GROUP BY and ORDER BY. -/
def productDailyColumnRefs : List (String × String) :=
  [("d", "full_date"), ("f", "ad_name"), ("f", "results"),
   ("f", "date_key"), ("d", "date_key"),
   ("f", "campaign_id"), ("c", "campaign_id"),
   ("c", "channel"), ("c", "objective"), ("c", "campaign_name")]

/-- Does a column reference resolve against the aliased tables? -/
def refResolves (aliases : List (String × List String)) (ref : String × String) : Bool :=
  match aliases.lookup ref.1 with
  | some cols => cols.contains ref.2
  | none => false

/-- One result row of the `getProductDaily` query as consumed by the
post-processing: `full_date`, `ad_name`, summed `results`. -/
structure PDRow where
  full_date : String
  ad_name : Option String
  total_results : Int

/-- Running the `getProductDaily` statement: SQLite refuses a query
referencing a column absent from the schema with a no-such-column
error; otherwise the grouped result rows are returned.  Only statement
validation is modelled; the would-be result rows are passed in as an
oracle parameter, since the claims about this endpoint never reach
them. -/
def runProductDailyQuery (startKey endKey : Int) (resultRows : List PDRow) :
    Except String (List PDRow) :=
  match productDailyColumnRefs.find? (fun r => ! refResolves productDailyTableAliases r) with
  | some r => .error ("no such column: " ++ r.1 ++ "." ++ r.2)
  | none =>
    let _ := (startKey, endKey)
    .ok resultRows

/-- Accumulate into an insertion-ordered association list, modelling
`obj[k] = (obj[k] || 0) + v` on a string-keyed JavaScript object. -/
def updateAssoc (l : List (String × Int)) (k : String) (v : Int) : List (String × Int) :=
  match l with
  | [] => [(k, v)]
  | (k', v') :: t => if k' = k then (k', v' + v) :: t else (k', v') :: updateAssoc t k v

/-- Nested accumulation for `dateProductMap[date][product]`. -/
def updateAssoc2 (l : List (String × List (String × Int))) (dt p : String) (v : Int) :
    List (String × List (String × Int)) :=
  match l with
  | [] => [(dt, [(p, v)])]
  | (k, m) :: t => if k = dt then (k, updateAssoc m p v) :: t else (k, m) :: updateAssoc2 t dt p v

/-- Lexicographic order on strings by character code, modelling the
default JavaScript `Array.prototype.sort` on ISO date strings. -/
def charListLe : List Char → List Char → Bool
  | [], _ => true
  | _ :: _, [] => false
  | a :: as, b :: bs => if a = b then charListLe as bs else decide (a < b)

/-- Boolean string order for sorting date keys. -/
def strLeB (a b : String) : Bool :=
  charListLe a.data b.data

/-- The in-memory post-processing of `getProductDaily`: total messages
per product line, top products by total, per-date per-product sums for
those products, and the reshaped `dates`/`series`/`topProducts`
response data. -/
def buildProductDailyData (rows : List PDRow) (limit : Int) : Json :=
  let productTotals := rows.foldl
    (fun acc row => updateAssoc acc (extractProductLine row.ad_name) row.total_results) []
  let topProducts :=
    ((productTotals.mergeSort (fun a b => b.2 ≤ a.2)).take limit.toNat).map Prod.fst
  let dateProductMap := rows.foldl
    (fun acc row =>
      let product := extractProductLine row.ad_name
      if topProducts.contains product then
        updateAssoc2 acc row.full_date product row.total_results
      else acc) []
  let dates := (dateProductMap.map Prod.fst).mergeSort strLeB
  let series := topProducts.map (fun p =>
    Json.jobj
      [("name", Json.jstr p),
       ("data", Json.jarr (dates.map (fun dt =>
         Json.jnum (((((dateProductMap.lookup dt).getD []).lookup p).getD 0 : Int) : ℚ))))])
  Json.jobj
    [("dates", Json.jarr (dates.map Json.jstr)),
     ("series", Json.jarr series),
     ("topProducts", Json.jarr (topProducts.map Json.jstr))]

/-- `getProductDaily(env, params)`: resolve the date window (default:
the trailing 30 days ending today), the limit (`parseInt(limit) || 5`),
run the daily-messages query and reshape its rows; a store error is
answered as the 500 error envelope of the catch branch. -/
def getProductDaily (resultRows : List PDRow) (startDate endDate : Option Ymd)
    (limitParam : Option String) (today : Ymd) : WResponse :=
  let parsedLimit := parseIntOr0 (match limitParam with
    | none => JsVal.vnull
    | some s => JsVal.vstr s)
  let limit := if parsedLimit = 0 then 5 else parsedLimit
  let window : Ymd × Ymd :=
    match startDate, endDate with
    | some s, some e => (s, e)
    | _, _ => (subDays today 30, today)
  match runProductDailyQuery (getDateKey window.1) (getDateKey window.2) resultRows with
  | .error e => jsonResponse (Json.jobj [("error", Json.jstr e)]) 500
  | .ok rows => jsonResponse (buildProductDailyData rows limit) 200

/-! ## Specification-side formulas and concrete fixtures -/

/-- The week-of-year value the code stores, re-expressed in days: days
since January 1 of the year, plus the JS weekday of January 1, divided
by 7 and rounded up. -/
def specWeekOfYear (y m d : Int) : Int :=
  (daysFromCivil y m d - daysFromCivil y 1 1 + (daysFromCivil y 1 1 + 4) % 7 + 6) / 7

/-- The week-of-year formula as the specification claim states it: days
since January 1 of the year divided by 7, rounded up. -/
def claimWeekOfYear (y m d : Int) : Int :=
  (daysFromCivil y m d - daysFromCivil y 1 1 + 6) / 7

/-- A well-formed performance row (used as a concrete test batch row). -/
def wRowA : PerfRow :=
  ⟨some "Mess FB Campaign", some ⟨2025, 10, 14⟩, none, some "DIRTY MILK ad",
   none, none, .vnull, .vnull, .vnull, .vnull⟩

/-- A performance row with a missing campaign reference: its resolved
campaign key is null and the fact insert violates NOT NULL. -/
def wRowBad : PerfRow :=
  ⟨none, some ⟨2025, 10, 14⟩, none, none, none, none, .vnull, .vnull, .vnull, .vnull⟩

/-- Another well-formed performance row. -/
def wRowC : PerfRow :=
  ⟨some "Impression IG", some ⟨2025, 10, 15⟩, none, none, none, none,
   .vnull, .vnull, .vnull, .vnull⟩

/-- A three-row batch whose middle row fails. -/
def wBatch : List PerfRow := [wRowA, wRowBad, wRowC]

/-- The error entry the batch `wBatch` records for its middle row. -/
def wErr : ErrEntry :=
  ⟨1, wRowBad, "NOT NULL constraint failed: fact_ads_performance.campaign_id"⟩

/-- A store that already contains one campaign row. -/
def presentDB : DB := { initialDB with campaigns := [⟨1, "Mess FB", "Message"⟩] }

/-! ## Store-invariant helper lemmas -/

/-- Campaign resolution never touches the performance fact table. -/
theorem getOrCreateCampaign_perfFacts (db : DB) (n : Option String) :
    ((getOrCreateCampaign db n).2).perfFacts = db.perfFacts := by
  unfold getOrCreateCampaign
  cases n with
  | none => rfl
  | some s =>
    by_cases hs : s = ""
    · simp [hs]
    · simp only [hs, if_false]
      cases h : db.campaigns.find? (fun c => c.campaign_name = s) <;> simp

/-- Date resolution never touches the performance fact table. -/
theorem getOrCreateDate_perfFacts (db : DB) (x : Option Ymd) :
    ((getOrCreateDate db x).2).perfFacts = db.perfFacts := by
  unfold getOrCreateDate
  cases x with
  | none => rfl
  | some v =>
    cases h : db.dates.find? (fun r => r.date_key = v.y * 10000 + v.m * 100 + v.d) <;> simp [h]

/-- Processing one row appends exactly one fact on success and none on
failure. -/
theorem processPerfRow_facts (db : DB) (r : PerfRow) :
    (processPerfRow db r).1.perfFacts.length
      = db.perfFacts.length + (if (processPerfRow db r).2 = none then 1 else 0) := by
  have hbase : ((getOrCreateDate (getOrCreateCampaign db r.Campaign).2 r.Date).2).perfFacts
      = db.perfFacts := by
    rw [getOrCreateDate_perfFacts, getOrCreateCampaign_perfFacts]
  rcases hdk : (getOrCreateDate (getOrCreateCampaign db r.Campaign).2 r.Date).1 with _ | dk <;>
    rcases hck : (getOrCreateCampaign db r.Campaign).1 with _ | ck <;>
    simp [processPerfRow, insertPerf, hdk, hck, hbase]

/-- Every batch row is either counted as processed or recorded as an
error entry. -/
theorem ingestGo_count (rows : List PerfRow) : ∀ (db : DB) (idx : Nat),
    (ingestGo db idx rows).2.1 + (ingestGo db idx rows).2.2.length = rows.length := by
  induction rows with
  | nil => intro db idx; simp [ingestGo]
  | cons r rs ih =>
    intro db idx
    rcases h : (processPerfRow db r).2 with _ | m <;>
      simp [ingestGo, h, ← ih (processPerfRow db r).1 (idx + 1)]
    all_goals omega

/-- Every recorded error entry carries the batch row at its index. -/
theorem ingestGo_errs (rows : List PerfRow) : ∀ (db : DB) (idx : Nat),
    ∀ e ∈ (ingestGo db idx rows).2.2,
      idx ≤ e.index ∧ rows.get? (e.index - idx) = some e.row := by
  induction rows with
  | nil => intro db idx e he; simp [ingestGo] at he
  | cons r rs ih =>
    intro db idx e he
    rcases h : (processPerfRow db r).2 with _ | m <;> simp [ingestGo, h] at he
    · have := ih (processPerfRow db r).1 (idx + 1) e he
      refine ⟨by omega, ?_⟩
      have hx : e.index - idx = (e.index - (idx + 1)) + 1 := by omega
      rw [hx]
      simpa using this.2
    · rcases he with he | he
      · subst he; simp
      · have := ih (processPerfRow db r).1 (idx + 1) e he
        refine ⟨by omega, ?_⟩
        have hx : e.index - idx = (e.index - (idx + 1)) + 1 := by omega
        rw [hx]
        simpa using this.2

/-- The batch grows the fact table by exactly the processed count. -/
theorem ingestGo_facts (rows : List PerfRow) : ∀ (db : DB) (idx : Nat),
    (ingestGo db idx rows).1.perfFacts.length
      = db.perfFacts.length + (ingestGo db idx rows).2.1 := by
  induction rows with
  | nil => intro db idx; simp [ingestGo]
  | cons r rs ih =>
    intro db idx
    have hp := processPerfRow_facts db r
    rcases h : (processPerfRow db r).2 with _ | m <;>
      simp [h] at hp <;>
      simp [ingestGo, h, ih (processPerfRow db r).1 (idx + 1), hp]
    all_goals omega

/-- The millisecond ceiling the code computes equals the day ceiling of
the specification-side formula. -/
theorem getWeekOfYear_eq_spec (y m d : Int) :
    getWeekOfYear y m d = specWeekOfYear y m d := by
  simp only [getWeekOfYear, specWeekOfYear, jsCeilDiv]
  omega

/-- `find?` returns the entry at the first index whose predicate holds. -/
theorem find?_of_first {α : Type} (p : α → Bool) : ∀ (l : List α) (i : Nat) (a : α),
    l.get? i = some a → p a = true →
    (∀ j b, j < i → l.get? j = some b → p b = false) →
    l.find? p = some a := by
  intro l
  induction l with
  | nil => intro i a h _ _; simp at h
  | cons x xs ih =>
    intro i a hget hp hmin
    cases i with
    | zero =>
      simp at hget
      subst hget
      simp [List.find?_cons, hp]
    | succ n =>
      have hx : p x = false := hmin 0 x (Nat.succ_pos n) rfl
      simp [List.find?_cons, hx]
      exact ih n a (by simpa using hget) hp
        (fun j b hj hg => hmin (j + 1) b (by omega) (by simpa using hg))

/-! ## Claim theorems -/

/-- Claim C1: for every request — any start date, end date and limit
parameters, and any would-be result rows — `getProductDaily` never
returns a data result: its query references the column `c.channel` of
`dim_campaign`, which does not exist in the schema, so the store query
fails for every input and the operation always answers with the
500 error envelope of its catch branch. -/
theorem productDaily_always_error (resultRows : List PDRow)
    (startDate endDate : Option Ymd) (limitParam : Option String) (today : Ymd) :
    getProductDaily resultRows startDate endDate limitParam today
      = jsonResponse (Json.jobj [("error", Json.jstr "no such column: c.channel")]) 500 := by
  rfl

/-- Claim C2: when a performance batch run records exactly one error
entry, that entry carries the offending row of the batch at its index,
the processed count is the batch length minus one, and the fact table
grew by exactly the batch length minus one — all other rows were
persisted. -/
theorem ingest_single_failure (db : DB) (rows : List PerfRow) (k : Nat) (e : ErrEntry)
    (herr : (ingestPerform db rows).2.2 = [e]) (hk : e.index = k) :
    (ingestPerform db rows).2.1 = rows.length - 1
    ∧ rows.get? k = some e.row
    ∧ (ingestPerform db rows).1.perfFacts.length
        = db.perfFacts.length + (rows.length - 1) := by
  have hc := ingestGo_count rows db 0
  have hf := ingestGo_facts rows db 0
  have he := ingestGo_errs rows db 0 e
    (by rw [show ingestGo db 0 rows = ingestPerform db rows from rfl, herr]; simp)
  unfold ingestPerform at *
  rw [herr] at hc
  simp at hc he
  refine ⟨by omega, ?_, by omega⟩
  rw [← hk]
  simpa using he

/-- Witness for C2: on the concrete three-row batch `wBatch` whose
middle row has no campaign reference, the run records exactly the one
error entry `wErr` and the theorem applies with `k = 1`. -/
theorem ingest_single_failure_w :
    (ingestPerform initialDB wBatch).2.2 = [wErr]
    ∧ ((ingestPerform initialDB wBatch).2.1 = wBatch.length - 1
       ∧ wBatch.get? 1 = some wErr.row
       ∧ (ingestPerform initialDB wBatch).1.perfFacts.length
           = initialDB.perfFacts.length + (wBatch.length - 1)) :=
  ⟨by decide, ingest_single_failure initialDB wBatch 1 wErr (by decide) rfl⟩

/-- Counterexample to claim C3: on a batch where no row fails, the
response data still contains the key `errors` (bound to JSON null by
the ternary in the code), so the field is present, not omitted. -/
theorem ingest_errors_field_not_omitted :
    (ingestPerform initialDB [wRowA]).2.2 = []
    ∧ (ingestDataObj initialDB [wRowA]).map Prod.fst = ["processed", "errors"]
    ∧ (ingestDataObj initialDB [wRowA]).lookup "errors" = some Json.jnull := by
  refine ⟨by decide, rfl, ?_⟩
  simp [ingestDataObj, List.lookup,
    show (ingestPerform initialDB [wRowA]).2.2 = [] from by decide]

/-- Claim C3 as amended: `processed` equals the number of fact rows
inserted; when no row fails the `errors` field is present with value
null (not omitted); when at least one row fails it is a non-empty
array. -/
theorem ingest_processed_and_errors_field (db : DB) (rows : List PerfRow) :
    ((ingestPerform db rows).1.perfFacts.length
        = db.perfFacts.length + (ingestPerform db rows).2.1)
    ∧ (ingestDataObj db rows).lookup "processed"
        = some (Json.jnum ((ingestPerform db rows).2.1 : ℚ))
    ∧ ((ingestPerform db rows).2.2 = [] →
        (ingestDataObj db rows).lookup "errors" = some Json.jnull)
    ∧ ((ingestPerform db rows).2.2 ≠ [] →
        (ingestDataObj db rows).lookup "errors"
          = some (Json.jarr ((ingestPerform db rows).2.2.map errEntryJson))
          ∧ (ingestPerform db rows).2.2.map errEntryJson ≠ []) := by
  refine ⟨ingestGo_facts rows db 0, ?_, ?_, ?_⟩
  · simp [ingestDataObj, List.lookup, ingestPerform]
  · intro h
    unfold ingestPerform at h
    simp [ingestDataObj, List.lookup, ingestPerform, h]
  · intro h
    have hlen : (ingestPerform db rows).2.2.length > 0 := List.length_pos.mpr h
    unfold ingestPerform at hlen
    constructor
    · simp [ingestDataObj, List.lookup, ingestPerform, hlen]
    · simpa using h

/-- Witness for the amended C3: the one-good-row batch has no error
entry and its response data binds `errors` to JSON null. -/
theorem ingest_processed_and_errors_field_w :
    (ingestPerform initialDB [wRowA]).2.2 = []
    ∧ (ingestDataObj initialDB [wRowA]).lookup "errors" = some Json.jnull :=
  ⟨by decide, (ingest_processed_and_errors_field initialDB [wRowA]).2.2.1 (by decide)⟩

/-- Claim C4: for every start and end day with start before or at end,
the previous period ends exactly one day before the start (no gap) and
spans the same duration as the input window. -/
theorem previousPeriod_correct (s e : Int) (h : s ≤ e) :
    (getPreviousPeriod s e).2 = s - 1
    ∧ (getPreviousPeriod s e).2 - (getPreviousPeriod s e).1 = e - s := by
  unfold getPreviousPeriod
  constructor <;> simp <;> omega

/-- Witness for C4 at the window 2025-01-01 to 2025-01-10 (epoch days
20089 to 20098). -/
theorem previousPeriod_correct_w :
    (20089 : Int) ≤ 20098
    ∧ ((getPreviousPeriod 20089 20098).2 = 20089 - 1
       ∧ (getPreviousPeriod 20089 20098).2 - (getPreviousPeriod 20089 20098).1
           = 20098 - 20089) :=
  ⟨by decide, previousPeriod_correct 20089 20098 (by decide)⟩

/-- Counterexample to claim C5: the age and gender resolvers do not
yield null for a missing natural-key input — they yield the default
surrogate keys 1 and 3. -/
theorem resolver_age_gender_default_not_null :
    (getOrCreateAge initialDB none).1 = some 1
    ∧ (getOrCreateGender initialDB none).1 = some 3
    ∧ (some 1 : Option Nat) ≠ none ∧ (some 3 : Option Nat) ≠ none :=
  ⟨rfl, rfl, by decide, by decide⟩

/-- Claim C5 as amended: for every store state, the campaign, date and
region resolvers yield null for a missing or empty natural-key input,
while the age resolver yields the default key 1 (first seeded age
group) and the gender resolver yields the default key 3 (the seeded
unknown gender). -/
theorem resolvers_missing_input (db : DB) :
    (getOrCreateCampaign db none).1 = none
    ∧ (getOrCreateCampaign db (some "")).1 = none
    ∧ (getOrCreateDate db none).1 = none
    ∧ (getOrCreateRegion db none).1 = none
    ∧ (getOrCreateRegion db (some "")).1 = none
    ∧ (getOrCreateAge db none).1 = some 1
    ∧ (getOrCreateAge db (some "")).1 = some 1
    ∧ (getOrCreateGender db none).1 = some 3
    ∧ (getOrCreateGender db (some "")).1 = some 3 :=
  ⟨rfl, rfl, rfl, rfl, rfl, rfl, rfl, rfl, rfl⟩

/-- Counterexample to claim C6: for 2025-01-06 the inserted date row
stores week_of_year 2 (the code adds the weekday of January 1 before
dividing), while the claimed formula — days since January 1 divided by
7 rounded up — gives 1. -/
theorem dateRow_week_counterexample :
    ((getOrCreateDate initialDB (some ⟨2025, 1, 6⟩)).2.dates.map DateRow.week_of_year = [2])
    ∧ claimWeekOfYear 2025 1 6 = 1
    ∧ (2 : Int) ≠ 1 := by decide

/-- Claim C6 as amended: for every valid calendar date inserted into
the date dimension, the stored week_of_year equals the days since
January 1 of that year plus the JS weekday of January 1, divided by 7
and rounded up, and the stored day_of_week is the JavaScript
day-of-week with Sunday remapped from 0 to 7. -/
theorem dateRow_week_and_day (db : DB) (x : Ymd) (hv : validYmd x)
    (habs : db.dates.find? (fun r => r.date_key = getDateKey x) = none) :
    ∃ r ∈ (getOrCreateDate db (some x)).2.dates,
      r.date_key = getDateKey x
      ∧ r.week_of_year = specWeekOfYear x.y x.m x.d
      ∧ r.day_of_week = (if jsGetDay x.y x.m x.d = 0 then 7 else jsGetDay x.y x.m x.d) := by
  refine ⟨mkDateRow x.y x.m x.d, ?_, ?_, ?_, ?_⟩
  · unfold getOrCreateDate
    unfold getDateKey at habs
    simp [habs]
  · simp [mkDateRow, getDateKey]
  · simp [mkDateRow, getWeekOfYear_eq_spec]
  · simp [mkDateRow]

/-- Witness for the amended C6 at 2025-01-06 inserted into the fresh
store. -/
theorem dateRow_week_and_day_w :
    validYmd ⟨2025, 1, 6⟩
    ∧ initialDB.dates.find? (fun r => r.date_key = getDateKey ⟨2025, 1, 6⟩) = none
    ∧ (∃ r ∈ (getOrCreateDate initialDB (some ⟨2025, 1, 6⟩)).2.dates,
        r.date_key = getDateKey ⟨2025, 1, 6⟩
        ∧ r.week_of_year = specWeekOfYear 2025 1 6
        ∧ r.day_of_week = (if jsGetDay 2025 1 6 = 0 then 7 else jsGetDay 2025 1 6)) :=
  ⟨by decide, rfl, dateRow_week_and_day initialDB ⟨2025, 1, 6⟩ (by decide) rfl⟩

/-- Claim C7: channel classification is a case-insensitive substring
match in fixed order — a Facebook token yields Facebook, otherwise an
Instagram token yields Instagram, otherwise Other; in particular a name
containing both a Facebook and an Instagram token yields Facebook. -/
theorem channel_classification (name : String) :
    ((likeContains name "FB" = true ∨ likeContains name "Facebook" = true) →
      channelOf name = "Facebook")
    ∧ (likeContains name "FB" = false → likeContains name "Facebook" = false →
        (likeContains name "IG" = true ∨ likeContains name "Instagram" = true) →
        channelOf name = "Instagram")
    ∧ (likeContains name "FB" = false → likeContains name "Facebook" = false →
        likeContains name "IG" = false → likeContains name "Instagram" = false →
        channelOf name = "Other")
    ∧ ((likeContains name "FB" = true ∨ likeContains name "Facebook" = true) →
        (likeContains name "IG" = true ∨ likeContains name "Instagram" = true) →
        channelOf name = "Facebook") := by
  unfold channelOf
  refine ⟨?_, ?_, ?_, ?_⟩
  · rintro (h | h) <;> simp [h]
  · intro h1 h2 h3
    rcases h3 with h3 | h3 <;> simp [h1, h2, h3]
  · intro h1 h2 h3 h4
    simp [h1, h2, h3, h4]
  · rintro (h | h) _ <;> simp [h]

/-- Witness for C7 on a name carrying both a Facebook and an Instagram
token. -/
theorem channel_classification_w :
    (likeContains "Mess FB IG Promo" "FB" = true
      ∨ likeContains "Mess FB IG Promo" "Facebook" = true)
    ∧ (likeContains "Mess FB IG Promo" "IG" = true
      ∨ likeContains "Mess FB IG Promo" "Instagram" = true)
    ∧ channelOf "Mess FB IG Promo" = "Facebook" :=
  ⟨Or.inl (by decide), Or.inl (by decide),
   (channel_classification "Mess FB IG Promo").2.2.2 (Or.inl (by decide)) (Or.inl (by decide))⟩

/-- Claim C8: product-line classification upper-cases the ad name and
takes the first product of the table (in declaration order) with a
matching keyword variant; no match yields Mix Product; an empty or
absent name yields Mix Product; and the two specification examples
hold. -/
theorem product_classification :
    (∀ (s : String) (i : Nat) (p : String × List String), s ≠ "" →
        productMapping.get? i = some p →
        matchesProduct (upperStr s) p = true →
        (∀ j q, j < i → productMapping.get? j = some q →
          matchesProduct (upperStr s) q = false) →
        extractProductLine (some s) = p.1)
    ∧ (∀ s : String, s ≠ "" →
        (∀ q ∈ productMapping, matchesProduct (upperStr s) q = false) →
        extractProductLine (some s) = "Mix Product")
    ∧ extractProductLine none = "Mix Product"
    ∧ extractProductLine (some "") = "Mix Product"
    ∧ extractProductLine (some "DIRTY MILK 50ml Promo") = "DIRTY MILK"
    ∧ extractProductLine (some "Random Ad") = "Mix Product" := by
  refine ⟨?_, ?_, rfl, rfl, by decide, by decide⟩
  · intro s i p hs hget hp hmin
    unfold extractProductLine
    simp only [hs, if_false]
    rw [find?_of_first (matchesProduct (upperStr s)) productMapping i p hget hp hmin]
  · intro s hs hall
    unfold extractProductLine
    simp only [hs, if_false]
    rw [List.find?_eq_none.mpr (fun q hq => by simp [hall q hq])]

/-- Witness for C8: the first table entry matches the ad name
DIRTY MILK 50ml Promo and wins. -/
theorem product_classification_w :
    productMapping.get? 0 = some ("DIRTY MILK", ["DIRTY MILK"])
    ∧ matchesProduct (upperStr "DIRTY MILK 50ml Promo") ("DIRTY MILK", ["DIRTY MILK"]) = true
    ∧ extractProductLine (some "DIRTY MILK 50ml Promo") = "DIRTY MILK" :=
  ⟨rfl, by decide,
   product_classification.1 "DIRTY MILK 50ml Promo" 0 ("DIRTY MILK", ["DIRTY MILK"])
     (by decide) rfl (by decide)
     (fun j q hj _ => absurd hj (Nat.not_lt_zero j))⟩

/-- Counterexample to claim C9: on a store that already contains the
campaign, resolving the same name twice performs zero inserts, not
exactly one — the table length is unchanged and the store is returned
as is. -/
theorem campaign_resolve_zero_inserts_when_present :
    ((getOrCreateCampaign ((getOrCreateCampaign presentDB (some "Mess FB")).2)
        (some "Mess FB")).2).campaigns.length = presentDB.campaigns.length
    ∧ (getOrCreateCampaign ((getOrCreateCampaign presentDB (some "Mess FB")).2)
        (some "Mess FB")).2 = presentDB
    ∧ presentDB.campaigns.length ≠ presentDB.campaigns.length + 1 := by decide

/-- Claim C9 as amended: for every store state and non-empty campaign
name, resolving the name twice returns the same surrogate key, the
second resolve leaves the store untouched (never updates or
re-inserts), and the pair of resolves performs exactly one insert when
the name was absent from the store and zero when it was present. -/
theorem campaign_resolve_idempotent (db : DB) (n : String) (hn : n ≠ "") :
    ((getOrCreateCampaign ((getOrCreateCampaign db (some n)).2) (some n)).1
        = (getOrCreateCampaign db (some n)).1)
    ∧ ((getOrCreateCampaign ((getOrCreateCampaign db (some n)).2) (some n)).2
        = (getOrCreateCampaign db (some n)).2)
    ∧ (db.campaigns.find? (fun c => c.campaign_name = n) = none →
        ((getOrCreateCampaign db (some n)).2).campaigns.length = db.campaigns.length + 1)
    ∧ ((db.campaigns.find? (fun c => c.campaign_name = n)).isSome →
        (getOrCreateCampaign db (some n)).2 = db) := by
  cases h : db.campaigns.find? (fun c => c.campaign_name = n) with
  | some c =>
    refine ⟨?_, ?_, fun hc => by simp [h] at hc, fun _ => ?_⟩ <;>
      simp [getOrCreateCampaign, hn, h]
  | none =>
    have h2 : (db.campaigns ++
        [(⟨db.campaigns.length + 1, n, deriveObjective n⟩ : CampaignRow)]).find?
          (fun c => c.campaign_name = n)
        = some (⟨db.campaigns.length + 1, n, deriveObjective n⟩ : CampaignRow) := by
      rw [List.find?_append, h]
      simp
    refine ⟨?_, ?_, fun _ => ?_, fun hc => by simp [h] at hc⟩ <;>
      simp [getOrCreateCampaign, hn, h, h2]

/-- Witness for the amended C9: resolving Impression FB twice on the
fresh store. -/
theorem campaign_resolve_idempotent_w :
    ("Impression FB" : String) ≠ ""
    ∧ (((getOrCreateCampaign ((getOrCreateCampaign initialDB (some "Impression FB")).2)
          (some "Impression FB")).1
        = (getOrCreateCampaign initialDB (some "Impression FB")).1)
      ∧ ((getOrCreateCampaign ((getOrCreateCampaign initialDB (some "Impression FB")).2)
            (some "Impression FB")).2
          = (getOrCreateCampaign initialDB (some "Impression FB")).2)
      ∧ (initialDB.campaigns.find? (fun c => c.campaign_name = "Impression FB") = none →
          ((getOrCreateCampaign initialDB (some "Impression FB")).2).campaigns.length
            = initialDB.campaigns.length + 1)
      ∧ ((initialDB.campaigns.find? (fun c => c.campaign_name = "Impression FB")).isSome →
          (getOrCreateCampaign initialDB (some "Impression FB")).2 = initialDB)) :=
  ⟨by decide, campaign_resolve_idempotent initialDB "Impression FB" (by decide)⟩

/-- Claim C10: `parseVietnameseNumber` is total in the model and never
raises — a numeric input is returned unchanged, the locale string
5.676,62 parses to 5676.62, the empty string and null parse to 0, the
number 42 is returned as is, and a string with no digits parses to 0. -/
theorem parseNumber_total_spec :
    (∀ q : ℚ, parseVietnameseNumber (.vnum q) = q)
    ∧ parseVietnameseNumber (.vstr "5.676,62") = 5676.62
    ∧ parseVietnameseNumber (.vstr "") = 0
    ∧ parseVietnameseNumber (.vnum 42) = 42
    ∧ parseVietnameseNumber .vnull = 0
    ∧ parseVietnameseNumber (.vstr "no digits") = 0 := by
  have hnum : ∀ q : ℚ, parseVietnameseNumber (.vnum q) = q := by
    intro q
    by_cases hq : q = 0 <;> simp [parseVietnameseNumber, hq]
  refine ⟨hnum, ?_, rfl, hnum 42, rfl, ?_⟩
  · simp +decide [parseVietnameseNumber, stripDots, replaceFirstComma, parseFloatQ,
      parseSignificand, takeDigits, parseExponent, digitsToNat]
    norm_num
  · simp +decide [parseVietnameseNumber, stripDots, replaceFirstComma, parseFloatQ,
      parseSignificand, takeDigits, parseExponent, digitsToNat]
